import Mathlib

/-!
Shallow embedding of `homework.py` (a Telegram homework-status bot) and
proofs about its behaviour.

Modelling conventions:
* Python/JSON values are `PyVal` (dicts are association lists in insertion
  order; `dict.get` is first-match lookup, which agrees with Python because
  Python dict keys are unique).
* Every Python exception that can arise in this program is a `PyErr`; all of
  them subclass `Exception` in the source, so a bare `except Exception`
  catches each one.
* Fallible code returns `Except PyErr α`.
* The outside world (the HTTP response obtained by `requests.get`, the
  outcome of the telegram bot's `send_message`) is passed in as explicit data.
-/

/-- Python/JSON values as they occur in this program: `None`, ints, strings,
lists and dicts (association lists, first occurrence of a key wins). -/
inductive PyVal where
  | none : PyVal
  | int (n : Int) : PyVal
  | str (s : String) : PyVal
  | list (xs : List PyVal) : PyVal
  | dict (es : List (String × PyVal)) : PyVal
deriving Repr

/-- Python truthiness for the values of `PyVal`: `None`, `0`, `""`, `[]`
and `{}` are falsy, everything else is truthy. -/
def PyVal.truthy : PyVal → Bool
  | PyVal.none => false
  | PyVal.int n => n ≠ 0
  | PyVal.str s => s ≠ ""
  | PyVal.list xs => !xs.isEmpty
  | PyVal.dict es => !es.isEmpty

/-- Truthiness of a `dict.get` result (`None` for a missing key is falsy). -/
def optTruthy : Option PyVal → Bool
  | Option.none => false
  | Option.some v => v.truthy

/-- Lookup in a Python dict (`d.get(k)`): the value under the first matching
key, if any. -/
def dictGet (es : List (String × PyVal)) (k : String) : Option PyVal :=
  (es.find? (fun p => p.1 = k)).map Prod.snd

/-- The exceptions this program can raise or observe.  All of them are
subclasses of `Exception` in the source (`ApiError`, `EmptyTokenError`,
`ParseError` come from `exceptions.py`; the rest are builtins or library
exceptions), so `except Exception` catches every constructor. -/
inductive PyErr where
  | apiError (msg : String) : PyErr
  | emptyTokenError (msg : String) : PyErr
  | parseError (msg : String) : PyErr
  | typeError (msg : String) : PyErr
  | keyError (key : String) : PyErr
  | indexError (msg : String) : PyErr
  | attributeError (msg : String) : PyErr
  | requestException (msg : String) : PyErr
  | jsonDecodeError (msg : String) : PyErr
  | telegramError (msg : String) : PyErr
deriving Repr

/-- What `str(error)` produces for each exception: for `KeyError` Python
shows the repr of the missing key (with quotes); for the others, the
message the exception was constructed with. -/
def PyErr.msg : PyErr → String
  | PyErr.apiError m => m
  | PyErr.emptyTokenError m => m
  | PyErr.parseError m => m
  | PyErr.typeError m => m
  | PyErr.keyError k => "\x27" ++ k ++ "\x27"
  | PyErr.indexError m => m
  | PyErr.attributeError m => m
  | PyErr.requestException m => m
  | PyErr.jsonDecodeError m => m
  | PyErr.telegramError m => m

mutual

/-- Python `repr` of a value (used by `str` on containers). -/
def pyRepr : PyVal → String
  | PyVal.none => "None"
  | PyVal.int n => toString n
  | PyVal.str s => "\x27" ++ s ++ "\x27"
  | PyVal.list xs => "[" ++ String.intercalate ", " (pyReprList xs) ++ "]"
  | PyVal.dict es => "\x7b" ++ String.intercalate ", " (pyReprEntries es) ++ "\x7d"

/-- reprs of the elements of a list value. -/
def pyReprList : List PyVal → List String
  | [] => []
  | v :: vs => pyRepr v :: pyReprList vs

/-- reprs of the entries of a dict value. -/
def pyReprEntries : List (String × PyVal) → List String
  | [] => []
  | (k, v) :: es => ("\x27" ++ k ++ "\x27: " ++ pyRepr v) :: pyReprEntries es

end

/-- Python `str` of a value, as used by f-string interpolation: strings
unchanged, everything else via `repr`. -/
def pyStr : PyVal → String
  | PyVal.str s => s
  | v => pyRepr v

/-- `ENDPOINT` constant (homework.py line 21). -/
def ENDPOINT : String := "https://practicum.yandex.ru/api/user_api/homework_statuses/"

/-- `RETRY_PERIOD` constant (homework.py line 20): seconds slept between
iterations. -/
def RETRY_PERIOD : Nat := 600

/-- `HOMEWORK_VERDICTS` (homework.py lines 25-29). -/
def HOMEWORK_VERDICTS : List (String × String) :=
  [("approved", "Работа проверена: ревьюеру всё понравилось. Ура!"),
   ("reviewing", "Работа взята на проверку ревьюером."),
   ("rejected", "Работа проверена: у ревьюера есть замечания.")]

/-- `HOMEWORK_VERDICTS.get(status)` where `status` is an arbitrary Python
value: lists and dicts are unhashable and make `.get` raise `TypeError`;
any other value is hashable and, unless it is one of the three string keys,
looks up to `None`. -/
def verdictLookup : PyVal → Except PyErr (Option String)
  | PyVal.list _ => Except.error (PyErr.typeError "unhashable type: list")
  | PyVal.dict _ => Except.error (PyErr.typeError "unhashable type: dict")
  | PyVal.str s => Except.ok ((HOMEWORK_VERDICTS.find? (fun p => p.1 = s)).map Prod.snd)
  | _ => Except.ok Option.none

/-- `check_response` (homework.py lines 90-99): raise `TypeError` unless the
response is a dict whose `homeworks` value is a list. -/
def check_response (response : PyVal) : Except PyErr Unit :=
  match response with
  | PyVal.dict es =>
    match dictGet es "homeworks" with
    | Option.some (PyVal.list _) => Except.ok ()
    | _ => Except.error (PyErr.typeError "value of homeworks is not list")
  | _ => Except.error (PyErr.typeError "response is not a dict type")

/-- The success message of `parse_status` (homework.py line 119). -/
def statusMessage (name verdict : String) : String :=
  "Изменился статус проверки работы \"" ++ name ++ "\". " ++ verdict

/-- `parse_status` (homework.py lines 102-119).  Mirrors the walrus
conditionals: `if not (status := homework.get('status'))` raises when the
key is missing or its value falsy; then `HOMEWORK_VERDICTS.get(status)`
must give a truthy verdict; then `homework_name` must be present and
truthy.  Calling `.get` on a non-dict value raises `AttributeError`. -/
def parse_status (homework : PyVal) : Except PyErr String :=
  match homework with
  | PyVal.dict es =>
    match dictGet es "status" with
    | Option.none => Except.error (PyErr.parseError "status not in homework!")
    | Option.some sv =>
      if !sv.truthy then Except.error (PyErr.parseError "status not in homework!")
      else
        match verdictLookup sv with
        | Except.error e => Except.error e
        | Except.ok ov =>
          match ov with
          | Option.none => Except.error (PyErr.parseError "status does not match legit status names")
          | Option.some verdict =>
            if verdict = "" then Except.error (PyErr.parseError "status does not match legit status names")
            else
              match dictGet es "homework_name" with
              | Option.none => Except.error (PyErr.parseError "homework_name not in homework")
              | Option.some nv =>
                if !nv.truthy then Except.error (PyErr.parseError "homework_name not in homework")
                else Except.ok (statusMessage (pyStr nv) verdict)
  | _ => Except.error (PyErr.attributeError "object has no attribute get")


/-- The environment seen at module load: the values of the three
`os.getenv` calls (homework.py lines 16-18); `Option.none` models an absent
variable. -/
structure Env where
  practicum_token : Option String
  telegram_token : Option String
  telegram_chat_id : Option String

/-- Truthiness of an `os.getenv` result: absent (`None`) and the empty
string are falsy. -/
def envTruthy : Option String → Bool
  | Option.none => false
  | Option.some s => s ≠ ""

/-- `check_tokens` (homework.py lines 42-50): raise `EmptyTokenError`
unless all three credentials are truthy (`PRACTICUM_TOKEN and TELEGRAM_TOKEN
and TELEGRAM_CHAT_ID`). -/
def check_tokens (env : Env) : Except PyErr Unit :=
  if envTruthy env.practicum_token && envTruthy env.telegram_token
      && envTruthy env.telegram_chat_id then
    Except.ok ()
  else
    Except.error (PyErr.emptyTokenError "tokens should not be empty!")

/-- A bot handle: what `bot.send_message(TELEGRAM_CHAT_ID, message)` does
for each message — succeed, or raise some exception. -/
def BotHandle : Type := String → Except PyErr Unit

/-- `send_message` (homework.py lines 53-66): try the chat-client send;
on success log a debug line, on any exception log an error line.  Either
way the function returns normally; the returned value is the log line it
emitted. -/
def send_message (bot : BotHandle) (message : String) : Except PyErr (List String) :=
  Except.ok
    (match bot message with
     | Except.ok _ => ["<send_message> func is working"]
     | Except.error e => [PyErr.msg e ++ ", <send_message> is not working"])

/-- The outcome of `response.json()`: a decoded value, or
`json.JSONDecodeError`. -/
inductive JsonBody where
  | ok (v : PyVal) : JsonBody
  | decodeError (msg : String) : JsonBody

/-- The outcome of one `requests.get(ENDPOINT, ...)` call: either the
request itself raised, or an HTTP response arrived with a status code and
a body. -/
inductive HttpOutcome where
  | exn (e : PyErr) : HttpOutcome
  | response (status : Nat) (body : JsonBody) : HttpOutcome

/-- `get_api_answer` (homework.py lines 69-87): inside the `try`, a non-200
status raises `ApiError`; `response.json()` may raise a decode error; the
`except Exception` block catches any of these (and any request-level
exception) and raises a fresh `ApiError` with the same message.  Only a
200 response with a decodable body returns the decoded value. -/
def get_api_answer (outcome : HttpOutcome) : Except PyErr PyVal :=
  match outcome with
  | HttpOutcome.exn _ =>
    Except.error (PyErr.apiError ("cannot connect to " ++ ENDPOINT))
  | HttpOutcome.response status body =>
    if status ≠ 200 then
      Except.error (PyErr.apiError ("cannot connect to " ++ ENDPOINT))
    else
      match body with
      | JsonBody.ok v => Except.ok v
      | JsonBody.decodeError _ =>
        Except.error (PyErr.apiError ("cannot connect to " ++ ENDPOINT))

/-- Python `value.get(key)` on an arbitrary value: only dicts have `.get`;
anything else raises `AttributeError`. -/
def pyGet (v : PyVal) (k : String) : Except PyErr (Option PyVal) :=
  match v with
  | PyVal.dict es => Except.ok (dictGet es k)
  | _ => Except.error (PyErr.attributeError "object has no attribute get")

/-- Python `value[key]` for a string key: on a dict a missing key raises
`KeyError`; on anything else subscripting with a string fails. -/
def pyIndex (v : PyVal) (k : String) : Except PyErr PyVal :=
  match v with
  | PyVal.dict es =>
    match dictGet es k with
    | Option.some w => Except.ok w
    | Option.none => Except.error (PyErr.keyError k)
  | PyVal.list _ => Except.error (PyErr.typeError "list indices must be integers")
  | _ => Except.error (PyErr.typeError "object is not subscriptable")

/-- Python `value[0]`: the first element of a list (IndexError when empty),
the first character of a string, a `KeyError` on dicts, `TypeError` on
anything unsubscriptable. -/
def pyFirst (v : PyVal) : Except PyErr PyVal :=
  match v with
  | PyVal.list [] => Except.error (PyErr.indexError "list index out of range")
  | PyVal.list (x :: _) => Except.ok x
  | PyVal.str s =>
    if s = "" then Except.error (PyErr.indexError "string index out of range")
    else Except.ok (PyVal.str (s.take 1))
  | PyVal.dict _ => Except.error (PyErr.keyError "0")
  | _ => Except.error (PyErr.typeError "object is not subscriptable")

/-- `get_time_stamp` (homework.py lines 122-130): call the API with
`timestamp=0`, validate the shape, and return `respone.get('current_date')`
as is — `None` when the key is absent, with no type check. -/
def get_time_stamp (initApi : HttpOutcome) : Except PyErr PyVal := do
  let respone ← get_api_answer initApi
  let _ ← check_response respone
  let ts ← pyGet respone "current_date"
  match ts with
  | Option.some v => Except.ok v
  | Option.none => Except.ok PyVal.none


/-- The `try` block of one loop iteration (homework.py lines 151-158):
call the API with the current cursor, validate the shape, and — when
`response.get('homeworks')` is truthy — format the first record, send the
status message, and only then read `response['current_date']` as the new
cursor.  Returns the messages handed to `send_message` inside the block,
and either the cursor the iteration leaves behind or the exception the
block raised. -/
def tryBody (bot : BotHandle) (api : HttpOutcome) (timestamp : PyVal) :
    List String × Except PyErr PyVal :=
  match get_api_answer api with
  | Except.error e => ([], Except.error e)
  | Except.ok response =>
    match check_response response with
    | Except.error e => ([], Except.error e)
    | Except.ok _ =>
      match pyGet response "homeworks" with
      | Except.error e => ([], Except.error e)
      | Except.ok hw =>
        match hw with
        | Option.some homeworks =>
          if homeworks.truthy then
            match pyFirst homeworks with
            | Except.error e => ([], Except.error e)
            | Except.ok homework =>
              match parse_status homework with
              | Except.error e => ([], Except.error e)
              | Except.ok status =>
                match send_message bot status with
                | Except.error e => ([status], Except.error e)
                | Except.ok _ =>
                  match pyIndex response "current_date" with
                  | Except.error e => ([status], Except.error e)
                  | Except.ok ts2 => ([status], Except.ok ts2)
          else ([], Except.ok timestamp)
        | Option.none => ([], Except.ok timestamp)

/-- One full iteration of the `while True` loop (homework.py lines 149-166):
run the `try` block; on any exception build
`f'Сбой в работе программы: {error}'`, log it, and send it too.  Produces
the list of messages handed to `send_message` this iteration and the cursor
for the next iteration. -/
def loopIter (bot : BotHandle) (api : HttpOutcome) (timestamp : PyVal) :
    List String × PyVal :=
  match tryBody bot api timestamp with
  | (msgs, Except.ok ts2) => (msgs, ts2)
  | (msgs, Except.error e) =>
    let message := "Сбой в работе программы: " ++ PyErr.msg e
    match send_message bot message with
    | _ => (msgs ++ [message], timestamp)

/-- Finitely many iterations of the poll loop, one `HttpOutcome` per
iteration.  Returns the trace of cursor values (the `from_date` each
iteration polls with, ending with the cursor the last iteration leaves)
and all messages handed to `send_message`. -/
def runLoop (bot : BotHandle) : List HttpOutcome → PyVal → List PyVal × List String
  | [], ts => ([ts], [])
  | api :: rest, ts =>
    let step := loopIter bot api ts
    let tail := runLoop bot rest step.2
    (ts :: tail.1, step.1 ++ tail.2)

/-- How a (finitely observed) run of `main` ends: `fatal e sent` when an
uncaught exception terminates the process after the messages in `sent`
were handed to `send_message`, or `running trace sent` when the process is
still polling after consuming every provided iteration outcome. -/
inductive MainResult where
  | fatal (e : PyErr) (sent : List String) : MainResult
  | running (trace : List PyVal) (sent : List String) : MainResult
deriving Repr

namespace Homework

/-- `main` (homework.py lines 133-166): `check_tokens`, build the bot,
initialize the cursor with `get_time_stamp()` (both outside any
`try`/`except`), then loop.  The startup calls run before the loop, so an
exception there terminates the process. -/
def main (env : Env) (bot : BotHandle) (initApi : HttpOutcome)
    (apis : List HttpOutcome) : MainResult :=
  match check_tokens env with
  | Except.error e => MainResult.fatal e []
  | Except.ok _ =>
    match get_time_stamp initApi with
    | Except.error e => MainResult.fatal e []
    | Except.ok timestamp =>
      let run := runLoop bot apis timestamp
      MainResult.running run.1 run.2

end Homework

/-- A bot handle whose sends always succeed (a concrete environment for
closed runs). -/
def alwaysOkBot : BotHandle := fun _ => Except.ok ()

/-- A bot handle whose sends always raise (a concrete environment for
closed runs). -/
def alwaysFailBot : BotHandle := fun _ => Except.error (PyErr.telegramError "Chat not found")

/-- C5.  `check_response` returns without error exactly on dicts whose
`homeworks` value is a list; every other top-level type, a missing
`homeworks` key, or a non-list `homeworks` value raises `TypeError`. -/
theorem check_response_accepts_iff (v : PyVal) :
    check_response v = Except.ok () ↔
      ∃ es hws, v = PyVal.dict es ∧ dictGet es "homeworks" = Option.some (PyVal.list hws) := by
  constructor
  · intro h
    cases v with
    | dict es =>
      refine ⟨es, ?_⟩
      cases hg : dictGet es "homeworks" with
      | none => simp [check_response, hg] at h
      | some w =>
        cases w <;> simp [check_response, hg] at h ⊢
    | none => simp [check_response] at h
    | int n => simp [check_response] at h
    | str s => simp [check_response] at h
    | list xs => simp [check_response] at h
  · rintro ⟨es, hws, rfl, hg⟩
    simp [check_response, hg]

/-- C6.  `get_api_answer`: a request-level exception, a non-200 status, or
a JSON decode failure each raise `ApiError` ("cannot connect to" the
endpoint); an HTTP 200 response with a decodable body returns exactly the
decoded value. -/
theorem get_api_answer_transport_spec :
    (∀ e, get_api_answer (HttpOutcome.exn e) =
        Except.error (PyErr.apiError ("cannot connect to " ++ ENDPOINT))) ∧
    (∀ status body, status ≠ 200 → get_api_answer (HttpOutcome.response status body) =
        Except.error (PyErr.apiError ("cannot connect to " ++ ENDPOINT))) ∧
    (∀ m, get_api_answer (HttpOutcome.response 200 (JsonBody.decodeError m)) =
        Except.error (PyErr.apiError ("cannot connect to " ++ ENDPOINT))) ∧
    (∀ v, get_api_answer (HttpOutcome.response 200 (JsonBody.ok v)) = Except.ok v) := by
  refine ⟨fun e => rfl, fun status body h => ?_, fun m => rfl, fun v => rfl⟩
  simp [get_api_answer, h]

/-- Witness for C6: a 500 response is rejected as a transport error. -/
theorem get_api_answer_transport_spec_witness :
    get_api_answer (HttpOutcome.response 500 (JsonBody.ok (PyVal.dict []))) =
      Except.error (PyErr.apiError ("cannot connect to " ++ ENDPOINT)) :=
  get_api_answer_transport_spec.2.1 500 (JsonBody.ok (PyVal.dict [])) (by decide)

/-- C7.  `send_message` returns normally for every outcome of the
underlying chat-client send; when the send raises, the exception is
swallowed and turned into an error log line. -/
theorem send_message_never_propagates :
    (∀ (bot : BotHandle) (message : String), ∃ logs, send_message bot message = Except.ok logs) ∧
    (∀ (bot : BotHandle) (message : String) (e : PyErr), bot message = Except.error e →
      send_message bot message =
        Except.ok [PyErr.msg e ++ ", <send_message> is not working"]) := by
  constructor
  · intro bot message
    exact ⟨_, rfl⟩
  · intro bot message e h
    simp [send_message, h]

/-- Witness for C7: a failing send is swallowed and logged. -/
theorem send_message_never_propagates_witness :
    send_message alwaysFailBot "hello" =
      Except.ok ["Chat not found, <send_message> is not working"] :=
  send_message_never_propagates.2 alwaysFailBot "hello"
    (PyErr.telegramError "Chat not found") rfl

/-- The only exception `check_tokens` can raise is the fixed
`EmptyTokenError`. -/
theorem check_tokens_error_eq (env : Env) (e : PyErr)
    (h : check_tokens env = Except.error e) :
    e = PyErr.emptyTokenError "tokens should not be empty!" := by
  unfold check_tokens at h
  split_ifs at h
  exact (Except.error.injEq _ _ ▸ h).symm

/-- C8.  `check_tokens` succeeds exactly when all three credentials are
present and non-empty; when it fails, `main` terminates at once with the
fixed `EmptyTokenError`, with no message ever sent and no loop iteration
run. -/
theorem check_tokens_gate (env : Env) (bot : BotHandle) (initApi : HttpOutcome)
    (apis : List HttpOutcome) :
    (check_tokens env = Except.ok () ↔
      (envTruthy env.practicum_token = true ∧ envTruthy env.telegram_token = true ∧
        envTruthy env.telegram_chat_id = true)) ∧
    (check_tokens env = Except.ok () ∨
      Homework.main env bot initApi apis =
        MainResult.fatal (PyErr.emptyTokenError "tokens should not be empty!") []) := by
  constructor
  · unfold check_tokens
    rcases h1 : envTruthy env.practicum_token <;>
      rcases h2 : envTruthy env.telegram_token <;>
      rcases h3 : envTruthy env.telegram_chat_id <;> simp
  · rcases h : check_tokens env with e | u
    · right
      have he := check_tokens_error_eq env e h
      subst he
      simp [Homework.main, h]
    · left
      cases u
      rfl

/-- C4.  For each of the three status codes, `parse_status` on a record
with that status and a non-empty name returns exactly
`Изменился статус проверки работы "{name}". {verdict}` with the fixed
verdict sentence of that code. -/
theorem parse_status_verdict_messages (es : List (String × PyVal)) (name : String)
    (hname : dictGet es "homework_name" = Option.some (PyVal.str name))
    (hne : name ≠ "") :
    (dictGet es "status" = Option.some (PyVal.str "approved") →
      parse_status (PyVal.dict es) = Except.ok
        ("Изменился статус проверки работы \"" ++ name ++
          "\". Работа проверена: ревьюеру всё понравилось. Ура!")) ∧
    (dictGet es "status" = Option.some (PyVal.str "reviewing") →
      parse_status (PyVal.dict es) = Except.ok
        ("Изменился статус проверки работы \"" ++ name ++
          "\". Работа взята на проверку ревьюером.")) ∧
    (dictGet es "status" = Option.some (PyVal.str "rejected") →
      parse_status (PyVal.dict es) = Except.ok
        ("Изменился статус проверки работы \"" ++ name ++
          "\". Работа проверена: у ревьюера есть замечания.")) := by
  refine ⟨fun hs => ?_, fun hs => ?_, fun hs => ?_⟩ <;>
    simp [parse_status, hs, hname, PyVal.truthy, verdictLookup, HOMEWORK_VERDICTS,
      List.find?, statusMessage, pyStr, hne] <;>
    rw [String.append_assoc] <;> rfl

/-- Witness for C4: a concrete approved record. -/
theorem parse_status_verdict_messages_witness :
    parse_status (PyVal.dict [("status", PyVal.str "approved"),
        ("homework_name", PyVal.str "hw1")]) = Except.ok
      ("Изменился статус проверки работы \"" ++ "hw1" ++
        "\". Работа проверена: ревьюеру всё понравилось. Ура!") :=
  (parse_status_verdict_messages
    [("status", PyVal.str "approved"), ("homework_name", PyVal.str "hw1")]
    "hw1" rfl (by decide)).1 rfl

/-- Inversion for a successful `parse_status`: success forces a present,
truthy status whose verdict lookup hits, and a present, truthy
`homework_name`. -/
theorem parse_status_ok_inversion (es : List (String × PyVal)) (m : String)
    (h : parse_status (PyVal.dict es) = Except.ok m) :
    ∃ sv verdict nv, dictGet es "status" = Option.some sv ∧ sv.truthy = true ∧
      verdictLookup sv = Except.ok (Option.some verdict) ∧
      dictGet es "homework_name" = Option.some nv ∧ nv.truthy = true := by
  simp only [parse_status] at h
  rcases hsv : dictGet es "status" with _ | sv
  · rw [hsv] at h; simp at h
  rw [hsv] at h
  cases htr : sv.truthy with
  | false => simp [htr] at h
  | true =>
    simp only [htr, Bool.not_true, if_false, Bool.false_eq_true] at h
    rcases hvl : verdictLookup sv with e | ov
    · rw [hvl] at h; simp at h
    rw [hvl] at h
    rcases ov with _ | verdict
    · simp at h
    by_cases hve : verdict = ""
    · simp [hve] at h
    simp only [hve, if_false] at h
    rcases hnm : dictGet es "homework_name" with _ | nv
    · rw [hnm] at h; simp at h
    rw [hnm] at h
    cases hntr : nv.truthy with
    | false => simp [hntr] at h
    | true => exact ⟨sv, verdict, nv, rfl, htr, hvl, rfl, hntr⟩

/-- A verdict lookup can only hit on the three enumerated status codes. -/
theorem verdictLookup_some (sv : PyVal) (verdict : String)
    (h : verdictLookup sv = Except.ok (Option.some verdict)) :
    sv = PyVal.str "approved" ∨ sv = PyVal.str "reviewing" ∨ sv = PyVal.str "rejected" := by
  cases sv with
  | str s =>
    by_cases h1 : "approved" = s
    · subst h1; left; rfl
    by_cases h2 : "reviewing" = s
    · subst h2; right; left; rfl
    by_cases h3 : "rejected" = s
    · subst h3; right; right; rfl
    exfalso
    simp [verdictLookup, HOMEWORK_VERDICTS, List.find?, h1, h2, h3] at h
  | none => simp [verdictLookup] at h
  | int n => simp [verdictLookup] at h
  | list xs => simp [verdictLookup] at h
  | dict es => simp [verdictLookup] at h

/-- C3.  A record whose `status` key is missing, whose `status` value is
not one of the three enumerated codes, or whose `homework_name` is missing
or empty makes `parse_status` raise; it never returns a message. -/
theorem parse_status_invalid_record_raises (es : List (String × PyVal))
    (h : dictGet es "status" = Option.none ∨
      (∃ v, dictGet es "status" = Option.some v ∧ v ≠ PyVal.str "approved" ∧
        v ≠ PyVal.str "reviewing" ∧ v ≠ PyVal.str "rejected") ∨
      dictGet es "homework_name" = Option.none ∨
      dictGet es "homework_name" = Option.some (PyVal.str "")) :
    ∃ e, parse_status (PyVal.dict es) = Except.error e := by
  cases hp : parse_status (PyVal.dict es) with
  | error e => exact ⟨e, rfl⟩
  | ok m =>
    exfalso
    obtain ⟨sv, verdict, nv, hsv, htr, hvl, hnm, hntr⟩ :=
      parse_status_ok_inversion es m hp
    rcases h with h0 | ⟨v, hv, hv1, hv2, hv3⟩ | h2 | h3
    · rw [h0] at hsv; exact Option.noConfusion hsv
    · rw [hv] at hsv
      have hveq : sv = v := by injection hsv with h'; exact h'.symm
      subst hveq
      rcases verdictLookup_some sv verdict hvl with he | he | he
      · exact hv1 he
      · exact hv2 he
      · exact hv3 he
    · rw [h2] at hnm; exact Option.noConfusion hnm
    · rw [h3] at hnm
      have hneq : nv = PyVal.str "" := by injection hnm with h'; exact h'.symm
      rw [hneq] at hntr
      simp [PyVal.truthy] at hntr

/-- Witness for C3: a record with no `status` key is rejected. -/
theorem parse_status_invalid_record_raises_witness :
    ∃ e, parse_status (PyVal.dict [("homework_name", PyVal.str "hw2")]) =
      Except.error e :=
  parse_status_invalid_record_raises [("homework_name", PyVal.str "hw2")]
    (Or.inl rfl)

/-- The loop never aborts: a run over `n` outcomes always produces the
full trace of `n + 1` cursor values. -/
theorem runLoop_length (bot : BotHandle) (apis : List HttpOutcome) (ts : PyVal) :
    (runLoop bot apis ts).1.length = apis.length + 1 := by
  induction apis generalizing ts with
  | nil => rfl
  | cons a rest ih => simp [runLoop, ih]

/-- The first cursor a run polls with is its initial cursor. -/
theorem runLoop_head (bot : BotHandle) (apis : List HttpOutcome) (ts : PyVal) :
    (runLoop bot apis ts).1.head? = Option.some ts := by
  cases apis <;> rfl

/-- The `try` block either keeps the cursor, raises, or returns exactly
the `current_date` value of the ok response it received. -/
theorem tryBody_cursor (bot : BotHandle) (api : HttpOutcome) (ts : PyVal) :
    (tryBody bot api ts).2 = Except.ok ts ∨
    (∃ e, (tryBody bot api ts).2 = Except.error e) ∨
    (∃ r ts2, get_api_answer api = Except.ok r ∧
      pyIndex r "current_date" = Except.ok ts2 ∧
      (tryBody bot api ts).2 = Except.ok ts2) := by
  unfold tryBody
  repeat' split
  all_goals try exact Or.inl rfl
  all_goals try exact Or.inr (Or.inl ⟨_, rfl⟩)
  rename get_api_answer api = Except.ok _ => heqA
  rename pyIndex _ "current_date" = Except.ok _ => heqI
  exact Or.inr (Or.inr ⟨_, _, heqA, heqI, rfl⟩)

/-- Internal form of the C1 amendment: one iteration either keeps the
cursor or moves it to the `current_date` of the response it received. -/
theorem loopIter_cursor_cases (bot : BotHandle) (api : HttpOutcome) (ts : PyVal) :
    (loopIter bot api ts).2 = ts ∨
    ∃ r, get_api_answer api = Except.ok r ∧
      pyIndex r "current_date" = Except.ok (loopIter bot api ts).2 := by
  unfold loopIter
  rcases h : tryBody bot api ts with ⟨msgs, res⟩
  rcases tryBody_cursor bot api ts with h1 | ⟨e, h1⟩ | ⟨r, ts2, hA, hI, h1⟩
  · replace h1 : res = Except.ok ts := by rw [h] at h1; exact h1
    subst h1
    exact Or.inl rfl
  · replace h1 : res = Except.error e := by rw [h] at h1; exact h1
    subst h1
    exact Or.inl rfl
  · replace h1 : res = Except.ok ts2 := by rw [h] at h1; exact h1
    subst h1
    exact Or.inr ⟨r, hA, hI⟩

/-- C1 (amended).  The cursor either stays exactly as it was across an
iteration, or becomes the `current_date` value of the response the
iteration received — there is no other way it moves; and an iteration
that receives a shape-valid response with a non-empty `homeworks` list
whose first record parses does set the cursor to the response's
`current_date` when that key is present.  (It is not advanced on a
successful response whose `homeworks` list is empty, and it follows
`current_date` even downwards.) -/
theorem loopIter_cursor_spec :
    (∀ (bot : BotHandle) (api : HttpOutcome) (ts : PyVal),
      (loopIter bot api ts).2 = ts ∨
      ∃ r, get_api_answer api = Except.ok r ∧
        pyIndex r "current_date" = Except.ok (loopIter bot api ts).2) ∧
    (∀ (bot : BotHandle) (ts : PyVal) (es : List (String × PyVal))
      (hw : PyVal) (rest : List PyVal) (m : String) (cd : PyVal),
      dictGet es "homeworks" = Option.some (PyVal.list (hw :: rest)) →
      parse_status hw = Except.ok m →
      dictGet es "current_date" = Option.some cd →
      (loopIter bot (HttpOutcome.response 200 (JsonBody.ok (PyVal.dict es))) ts).2 = cd) := by
  refine ⟨loopIter_cursor_cases, fun bot ts es hw rest m cd h1 h2 h3 => ?_⟩
  simp [loopIter, tryBody, get_api_answer, check_response, pyGet, pyFirst,
    send_message, pyIndex, PyVal.truthy, h1, h2, h3]

/-- Witness for the amended C1: a concrete successful iteration advances
the cursor from 5 to the reported `current_date` 1000. -/
theorem loopIter_cursor_spec_witness :
    (loopIter alwaysOkBot (HttpOutcome.response 200 (JsonBody.ok
        (PyVal.dict [("homeworks", PyVal.list
            [PyVal.dict [("status", PyVal.str "approved"),
              ("homework_name", PyVal.str "hw1")]]),
          ("current_date", PyVal.int 1000)])))
      (PyVal.int 5)).2 = PyVal.int 1000 :=
  loopIter_cursor_spec.2 alwaysOkBot (PyVal.int 5)
    [("homeworks", PyVal.list [PyVal.dict [("status", PyVal.str "approved"),
        ("homework_name", PyVal.str "hw1")]]),
      ("current_date", PyVal.int 1000)]
    (PyVal.dict [("status", PyVal.str "approved"), ("homework_name", PyVal.str "hw1")])
    [] "Изменился статус проверки работы \"hw1\". Работа проверена: ревьюеру всё понравилось. Ура!"
    (PyVal.int 1000) rfl rfl rfl

/-- Counterexample for C1 as stated: a successful, shape-valid response
carrying `current_date = 7` but an empty `homeworks` list leaves the
cursor at 5 (the claim demands it become 7); and with a non-empty
`homeworks` list the cursor follows `current_date` even when that means
decreasing from 5 to 3. -/
theorem cursor_claim_counterexample :
    (check_response (PyVal.dict [("homeworks", PyVal.list []), ("current_date", PyVal.int 7)]) =
        Except.ok () ∧
      get_api_answer (HttpOutcome.response 200 (JsonBody.ok
          (PyVal.dict [("homeworks", PyVal.list []), ("current_date", PyVal.int 7)]))) =
        Except.ok (PyVal.dict [("homeworks", PyVal.list []), ("current_date", PyVal.int 7)]) ∧
      (loopIter alwaysOkBot (HttpOutcome.response 200 (JsonBody.ok
          (PyVal.dict [("homeworks", PyVal.list []), ("current_date", PyVal.int 7)])))
        (PyVal.int 5)).2 = PyVal.int 5 ∧
      PyVal.int 5 ≠ PyVal.int 7) ∧
    ((loopIter alwaysOkBot (HttpOutcome.response 200 (JsonBody.ok
          (PyVal.dict [("homeworks", PyVal.list
              [PyVal.dict [("status", PyVal.str "approved"),
                ("homework_name", PyVal.str "hw1")]]),
            ("current_date", PyVal.int 3)])))
        (PyVal.int 5)).2 = PyVal.int 3 ∧
      (3 : Int) < 5) := by
  refine ⟨⟨rfl, rfl, rfl, ?_⟩, rfl, by decide⟩
  intro hcontra
  exact absurd (PyVal.int.inj hcontra) (by decide)

/-- C2 (amended).  Either `main` dies during startup — on the credential
check or on the initial `get_time_stamp` cursor fetch, both outside any
`try`/`except` — or it is still running after every provided iteration:
errors inside loop iterations are always contained. -/
theorem main_fatal_only_at_startup (env : Env) (bot : BotHandle)
    (initApi : HttpOutcome) (apis : List HttpOutcome) :
    (∃ e, Homework.main env bot initApi apis = MainResult.fatal e [] ∧
      (check_tokens env = Except.error e ∨ get_time_stamp initApi = Except.error e)) ∨
    (∃ trace sent, Homework.main env bot initApi apis = MainResult.running trace sent ∧
      trace.length = apis.length + 1) := by
  unfold Homework.main
  rcases hc : check_tokens env with e | u
  · exact Or.inl ⟨e, rfl, Or.inl rfl⟩
  rcases ht : get_time_stamp initApi with e | ts
  · exact Or.inl ⟨e, rfl, Or.inr rfl⟩
  · exact Or.inr ⟨_, _, rfl, runLoop_length bot apis ts⟩

/-- Counterexample for C2 as stated: with all three credentials present,
a network failure on the startup cursor fetch still kills the process —
an abnormal termination that is not a missing-credential error. -/
theorem startup_api_failure_counterexample :
    check_tokens ⟨Option.some "a", Option.some "b", Option.some "c"⟩ = Except.ok () ∧
    Homework.main ⟨Option.some "a", Option.some "b", Option.some "c"⟩ alwaysOkBot
        (HttpOutcome.exn (PyErr.requestException "Connection refused")) [] =
      MainResult.fatal (PyErr.apiError ("cannot connect to " ++ ENDPOINT)) [] :=
  ⟨rfl, rfl⟩

/-- C9.  On a shape-valid initial response with no `current_date` key,
`get_time_stamp` returns Python `None` (despite its `int` annotation), and
`main` then starts its poll loop with that `None` as the initial cursor. -/
theorem get_time_stamp_missing_current_date (es : List (String × PyVal))
    (hws : List PyVal)
    (h1 : dictGet es "homeworks" = Option.some (PyVal.list hws))
    (h2 : dictGet es "current_date" = Option.none) :
    get_time_stamp (HttpOutcome.response 200 (JsonBody.ok (PyVal.dict es))) =
      Except.ok PyVal.none ∧
    (∀ env bot apis, check_tokens env = Except.ok () →
      Homework.main env bot (HttpOutcome.response 200 (JsonBody.ok (PyVal.dict es))) apis =
        MainResult.running (runLoop bot apis PyVal.none).1 (runLoop bot apis PyVal.none).2 ∧
      (runLoop bot apis PyVal.none).1.head? = Option.some PyVal.none) := by
  have hts : get_time_stamp (HttpOutcome.response 200 (JsonBody.ok (PyVal.dict es))) =
      Except.ok PyVal.none := by
    simp [get_time_stamp, get_api_answer, check_response, pyGet, bind, Except.bind, h1, h2]
  refine ⟨hts, fun env bot apis hck => ?_⟩
  rw [Homework.main, hck, hts]
  exact ⟨rfl, runLoop_head bot apis PyVal.none⟩

/-- Witness for C9: a concrete empty-homeworks response with no
`current_date`, full credentials, and no further iterations. -/
theorem get_time_stamp_missing_current_date_witness :
    get_time_stamp (HttpOutcome.response 200 (JsonBody.ok
        (PyVal.dict [("homeworks", PyVal.list [])]))) = Except.ok PyVal.none ∧
    (Homework.main ⟨Option.some "a", Option.some "b", Option.some "c"⟩ alwaysOkBot
        (HttpOutcome.response 200 (JsonBody.ok (PyVal.dict [("homeworks", PyVal.list [])])))
        [] = MainResult.running [PyVal.none] [] ∧
      ([PyVal.none] : List PyVal).head? = Option.some PyVal.none) := by
  have h := get_time_stamp_missing_current_date [("homeworks", PyVal.list [])] [] rfl rfl
  exact ⟨h.1, h.2 ⟨Option.some "a", Option.some "b", Option.some "c"⟩ alwaysOkBot [] rfl⟩

/-- C10.  On a shape-valid response with a non-empty `homeworks` list whose
first record parses, but no `current_date` key, the iteration first hands
the status message to the notifier, then fails on the cursor advance with
`KeyError`, sends the failure message as well, and leaves the cursor
unchanged. -/
theorem notify_then_cursor_failure (bot : BotHandle) (ts : PyVal)
    (es : List (String × PyVal)) (hw : PyVal) (rest : List PyVal) (m : String)
    (h1 : dictGet es "homeworks" = Option.some (PyVal.list (hw :: rest)))
    (h2 : parse_status hw = Except.ok m)
    (h3 : dictGet es "current_date" = Option.none) :
    loopIter bot (HttpOutcome.response 200 (JsonBody.ok (PyVal.dict es))) ts =
      ([m, "Сбой в работе программы: \x27current_date\x27"], ts) := by
  simp [loopIter, tryBody, get_api_answer, check_response, pyGet, pyFirst,
    send_message, pyIndex, PyVal.truthy, PyErr.msg, h1, h2, h3]

/-- Witness for C10: a concrete approved record with no `current_date`. -/
theorem notify_then_cursor_failure_witness :
    loopIter alwaysOkBot (HttpOutcome.response 200 (JsonBody.ok
        (PyVal.dict [("homeworks", PyVal.list
          [PyVal.dict [("status", PyVal.str "approved"),
            ("homework_name", PyVal.str "hw1")]])])))
      (PyVal.int 5) =
      (["Изменился статус проверки работы \"hw1\". Работа проверена: ревьюеру всё понравилось. Ура!",
        "Сбой в работе программы: \x27current_date\x27"], PyVal.int 5) :=
  notify_then_cursor_failure alwaysOkBot (PyVal.int 5)
    [("homeworks", PyVal.list [PyVal.dict [("status", PyVal.str "approved"),
      ("homework_name", PyVal.str "hw1")]])]
    (PyVal.dict [("status", PyVal.str "approved"), ("homework_name", PyVal.str "hw1")])
    [] "Изменился статус проверки работы \"hw1\". Работа проверена: ревьюеру всё понравилось. Ура!"
    rfl rfl rfl
